import Mathlib

/-!
Shallow embedding of `src/swaps/origins/OriginsSwapProvider.js` from the
Sovryn-Origins wallet, together with proofs about its quote computation,
approval logic, fee estimation and swap state machine.

Modelling conventions:
* JavaScript decimal arithmetic via bignumber.js is modelled over `ℚ`.
  bignumber.js addition and multiplication are exact; division rounds the
  quotient to `DECIMAL_PLACES = 20` decimal places with `ROUND_HALF_UP`
  (the library defaults, which the repository never changes).
* On-chain reads (`allowance`, `PPM`, `exchangeRate`, `isClosed`,
  transaction lookup, receipts), the chain client and the store are
  collaborators, modelled as fields of an `Env` record.
* Statuses are string constants in the source; they are modelled as an
  inductive enumeration with the same names.
* `undefined` / `null` returns are modelled with `Option`.
-/

namespace OriginsSwap

/-- The five `status` values of the provider (`statuses` table in the source). -/
inductive Status where
  | WAITING_FOR_APPROVE_CONFIRMATIONS
  | APPROVE_CONFIRMED
  | WAITING_FOR_SWAP_CONFIRMATIONS
  | SUCCESS
  | FAILED
  deriving DecidableEq, Repr

/-- Entry of the `cryptoassets` registry for one asset symbol: its chain id,
its base-unit decimals, its contract address and its type tag
(`"erc20"` for tokens). -/
structure AssetInfo where
  chain : String
  decimals : Nat
  contractAddress : String
  assetType : String
  deriving DecidableEq, Repr

/-- Abstract call data produced by `interface.encodeFunctionData`: the
function selector together with its decoded arguments. -/
inductive CallData where
  | approve (spender : String) (amount : Nat)
  | contribute (amount : Nat)
  deriving DecidableEq, Repr

/-- The transaction-request object built by `buildApprovalTx` / `buildSwapTx`
(`from` is informational, used only for estimation). -/
structure TxData where
  fromAddr : String
  toAddr : String
  value : ℚ
  data : CallData
  fee : ℚ
  deriving DecidableEq, Repr

/-- A transaction returned by `client.chain.sendTransaction`; only its `hash`
is inspected by the provider. -/
structure SentTx where
  hash : String
  deriving DecidableEq, Repr

/-- Result of `client.chain.getTransactionByHash`; only `confirmations` is
inspected. -/
structure TxLookup where
  confirmations : Nat
  deriving DecidableEq, Repr

/-- The durable swap record (also used as the `quote` argument of the
approval and swap helpers, exactly as `performNextSwapAction` passes
`swap` for `quote`).  `fromAmount` is an integer base-unit amount, as
`ethers.BigNumber.from(BN(quote.fromAmount).toFixed())` requires. -/
structure Swap where
  status : Status
  fromAsset : String
  toAsset : String
  fromAmount : Nat
  fee : ℚ
  fromAccountId : String
  toAccountId : String
  approveTxHash : String
  swapTxHash : String
  deriving DecidableEq, Repr

/-- A partial update returned by the provider's actions, to be merged into
the durable swap record; absent fields are `none`. -/
structure SwapUpdate where
  status : Status
  endTime : Option Nat := none
  approveTx : Option SentTx := none
  approveTxHash : Option String := none
  swapTx : Option SentTx := none
  swapTxHash : Option String := none
  deriving DecidableEq, Repr

/-- All external collaborators of the provider: the `cryptoassets` registry,
the configuration, the presale/token/controller contract reads, the account
resolver and the chain client.  `getTransactionByHash` returns `none` both
for a `null` result and for a `TxNotFoundError` (the source treats both as
"not yet observed").  `now` is `Date.now()`. -/
structure Env where
  cryptoassets : String → AssetInfo
  chainsNativeAsset : String → String
  presaleAddress : String
  controllerAddress : String
  isClosed : Bool
  PPM : Nat
  exchangeRate : Nat
  fromAddress : String
  allowance : Nat
  sendTransaction : TxData → SentTx
  estimateGas : TxData → Nat
  getTransactionByHash : String → Option TxLookup
  getTransactionReceipt : String → Nat
  now : Nat

/-- bignumber.js `a.dividedBy(b)` for natural operands under the library
defaults `DECIMAL_PLACES = 20`, `ROUNDING_MODE = ROUND_HALF_UP`: the exact
quotient rounded half-up to 20 decimal places.  For `0 < b` this equals
`⌊a·10²⁰/b + 1/2⌋ / 10²⁰`, computed here with natural division. -/
def bnDividedBy (a b : Nat) : ℚ :=
  (((2 * a * 10 ^ 20 + b) / (2 * b) : Nat) : ℚ) / (10 ^ 20 : ℚ)

/-- `currencyToUnit` from `@liquality/cryptoassets`: scales a currency
amount to base units by `10 ^ decimals` (exact in bignumber.js). -/
def currencyToUnit (info : AssetInfo) (value : ℚ) : ℚ :=
  value * 10 ^ info.decimals

/-- `unitToCurrency` from `@liquality/cryptoassets`: scales a base-unit
amount down by `10 ^ decimals`. -/
def unitToCurrency (info : AssetInfo) (value : ℚ) : ℚ :=
  value / 10 ^ info.decimals

/-- Modelled from the spec: `isERC20` from `src/utils/asset.js` is imported
by the provider but its file is not among the sources; the spec (§4.2)
describes it as classifying token (ERC-20) source assets apart from native
ones.  In the registry a token's entry carries type tag `"erc20"`. -/
def isERC20 (ca : String → AssetInfo) (asset : String) : Bool :=
  (ca asset).assetType == "erc20"

/-- `getDepositRate`: reads `PPM` and `exchangeRate` from the presale
contract and returns `BN(exchangeRate).dividedBy(BN(PPM))` (the source
round-trips the value through `toString`, which is exact here). -/
def getDepositRate (env : Env) : ℚ :=
  bnDividedBy env.exchangeRate env.PPM

/-- `checkSaleClosed`: reads `isClosed()` from the presale contract. -/
def checkSaleClosed (env : Env) : Bool :=
  env.isClosed

/-- The quote object literally returned by `getQuote`: fields `from`, `to`,
`fromAmount`, `toAmount` (and nothing else).  `fromAmount` is the decimal
string `currencyToUnit(fromInfo, BN(amount)).toFixed()` and `toAmount` the
BigNumber `BN(fromAmountInUnit).times(rate)`; both are modelled by their
exact numeric values. -/
structure Quote where
  fromAsset : String
  toAsset : String
  fromAmount : ℚ
  toAmount : ℚ
  deriving DecidableEq, Repr

/-- `getQuote({network, from, to, amount})`: `null` (here `none`) when the
assets are not both on the `rsk` chain, or `amount <= 0`, or the pair is
not `SOV → ZERO`, or the sale is closed; otherwise the quote built from the
deposit rate. -/
def getQuote (env : Env) (_network froA toA : String) (amount : ℚ) : Option Quote :=
  let fromInfo := env.cryptoassets froA
  let toInfo := env.cryptoassets toA
  if fromInfo.chain ≠ "rsk" ∨ toInfo.chain ≠ "rsk" ∨ amount ≤ 0 then none
  else if froA ≠ "SOV" ∨ toA ≠ "ZERO" then none
  else if checkSaleClosed env then none
  else
    let rate := getDepositRate env
    let fromAmountInUnit := currencyToUnit fromInfo amount
    some { fromAsset := froA
           toAsset := toA
           fromAmount := fromAmountInUnit
           toAmount := fromAmountInUnit * rate }

/-- `requiresApproval({network, walletId, quote})`: `false` for non-ERC20
source assets; otherwise `false` exactly when the token's
`allowance(fromAddress, presaleAddress)` is at least the requested input
amount, else `true`. -/
def requiresApproval (env : Env) (quote : Swap) : Bool :=
  if isERC20 env.cryptoassets quote.fromAsset = false then false
  else if env.allowance ≥ quote.fromAmount then false
  else true

/-- `buildApprovalTx`: encodes `approve(spender, amount)` for the exact input
amount, addressed to the token contract; `from` is the resolved unused
address, `value` is `0`, and the spender is the lower-cased presale
address. -/
def buildApprovalTx (env : Env) (quote : Swap) : TxData :=
  { fromAddr := env.fromAddress
    toAddr := (env.cryptoassets quote.fromAsset).contractAddress
    value := 0
    data := CallData.approve env.presaleAddress.toLower quote.fromAmount
    fee := quote.fee }

/-- `approveTokens`: when no approval is required, returns
`{status: APPROVE_CONFIRMED}` with no transaction; otherwise sends the
approval transaction and returns `WAITING_FOR_APPROVE_CONFIRMATIONS`
together with the transaction and its hash.  The second component is the
list of transactions submitted to the chain client during the call. -/
def approveTokens (env : Env) (quote : Swap) : SwapUpdate × List TxData :=
  if requiresApproval env quote = false then
    ({ status := Status.APPROVE_CONFIRMED }, [])
  else
    let txData := buildApprovalTx env quote
    let approveTx := env.sendTransaction txData
    ({ status := Status.WAITING_FOR_APPROVE_CONFIRMATIONS
       approveTx := some approveTx
       approveTxHash := some approveTx.hash },
     [txData])

/-- `buildSwapTx`: encodes `contribute(amount)` on the controller contract;
`value` is the input amount for a native source asset and `0` for an ERC-20
source. -/
def buildSwapTx (env : Env) (quote : Swap) : TxData :=
  { fromAddr := quote.fromAccountId
    toAddr := env.controllerAddress
    value := if isERC20 env.cryptoassets quote.fromAsset then 0 else (quote.fromAmount : ℚ)
    data := CallData.contribute quote.fromAmount
    fee := quote.fee }

/-- `sendSwap`: submits the swap transaction and returns
`WAITING_FOR_SWAP_CONFIRMATIONS` with the transaction and its hash; the
second component is the list of transactions submitted. -/
def sendSwap (env : Env) (quote : Swap) : SwapUpdate × List TxData :=
  let txData := buildSwapTx env quote
  let swapTx := env.sendTransaction txData
  ({ status := Status.WAITING_FOR_SWAP_CONFIRMATIONS
     swapTx := some swapTx
     swapTxHash := some swapTx.hash },
   [txData])

/-- `estimateFees`: throws (`Except.error`) for any `txType` other than
`fromTxType = txTypes.SWAP = "SWAP"`; otherwise the gas limit is the
approval-transaction estimate (only when approval is required) plus the
hardcoded 750000 for the swap transaction, and each candidate fee price
(in gwei) maps to `gasLimit × 1.1 × (feePrice × 10⁹)` expressed in the
native asset's display unit. -/
def estimateFees (env : Env) (asset txType : String) (quote : Swap)
    (feePrices : List ℚ) : Except String (List (ℚ × ℚ)) :=
  if txType ≠ "SWAP" then Except.error ("Invalid tx type " ++ txType)
  else
    let nativeAsset := env.chainsNativeAsset (env.cryptoassets asset).chain
    let approvalGas :=
      if requiresApproval env quote then env.estimateGas (buildApprovalTx env quote) else 0
    let gasLimit := approvalGas + 750000
    Except.ok (feePrices.map fun feePrice =>
      let gasPrice := feePrice * 10 ^ 9
      let fee := (gasLimit : ℚ) * (11 / 10) * gasPrice
      (feePrice, unitToCurrency (env.cryptoassets nativeAsset) fee))

/-- `waitForApproveConfirmations`: looks the approval transaction up by
hash; when found with more than zero confirmations, returns
`APPROVE_CONFIRMED` with `endTime = Date.now()`; otherwise (not found,
`TxNotFoundError`, or zero confirmations) returns no update. -/
def waitForApproveConfirmations (env : Env) (swap : Swap) : Option SwapUpdate :=
  match env.getTransactionByHash swap.approveTxHash with
  | some tx =>
      if tx.confirmations > 0 then
        some { status := Status.APPROVE_CONFIRMED, endTime := some env.now }
      else none
  | none => none

/-- `waitForSwapConfirmations`: looks the swap transaction up by hash; when
found with more than zero confirmations, fetches the receipt, fires the
balance refresh for the source asset, and returns `SUCCESS` when the
receipt status is `1` and `FAILED` otherwise, with `endTime = Date.now()`;
otherwise returns no update.  The second component is the list of assets
passed to `updateBalances` during the call. -/
def waitForSwapConfirmations (env : Env) (swap : Swap) :
    Option SwapUpdate × List String :=
  match env.getTransactionByHash swap.swapTxHash with
  | some tx =>
      if tx.confirmations > 0 then
        let receiptStatus := env.getTransactionReceipt swap.swapTxHash
        (some { status := if receiptStatus = 1 then Status.SUCCESS else Status.FAILED
                endTime := some env.now },
         [swap.fromAsset])
      else (none, [])
  | none => (none, [])

/-- Modelled from the spec: `withInterval` from
`store/actions/performNextAction/utils` is imported by the provider but its
file is not among the sources; the spec (§5, §9) describes it as a
retrying-task wrapper with attempt-once semantics whose retry cadence is
owned by the caller, so a single invocation yields the wrapped action's
result. -/
def withInterval (action : Option SwapUpdate) : Option SwapUpdate :=
  action

/-- Modelled from the spec: `withLock` from
`store/actions/performNextAction/utils` is imported by the provider but its
file is not among the sources; the spec (§5, §9) describes it as a keyed
mutex acquired around one submission attempt and released on every exit
path.  In this sequential embedding an invocation yields the guarded
action's result. -/
def withLock (action : SwapUpdate) : SwapUpdate :=
  action

/-- `performNextSwapAction`: dispatches on the swap's current status; the
two waiting states poll under `withInterval`, `APPROVE_CONFIRMED` submits
the swap transaction under the `(network, asset)` lock, and any other
status (`SUCCESS`, `FAILED`) falls through the `switch` leaving `updates`
undefined (`none`). -/
def performNextSwapAction (env : Env) (swap : Swap) : Option SwapUpdate :=
  match swap.status with
  | Status.WAITING_FOR_APPROVE_CONFIRMATIONS =>
      withInterval (waitForApproveConfirmations env swap)
  | Status.APPROVE_CONFIRMED =>
      some (withLock (sendSwap env swap).1)
  | Status.WAITING_FOR_SWAP_CONFIRMATIONS =>
      withInterval (waitForSwapConfirmations env swap).1
  | Status.SUCCESS => none
  | Status.FAILED => none

/-- Position of a status along the progression
`WAITING_FOR_APPROVE_CONFIRMATIONS → APPROVE_CONFIRMED →
WAITING_FOR_SWAP_CONFIRMATIONS → {SUCCESS, FAILED}` (the two terminal
statuses share the last position, matching `step: 2` in the source's
`statuses` table). -/
def statusRank : Status → Nat
  | Status.WAITING_FOR_APPROVE_CONFIRMATIONS => 0
  | Status.APPROVE_CONFIRMED => 1
  | Status.WAITING_FOR_SWAP_CONFIRMATIONS => 2
  | Status.SUCCESS => 3
  | Status.FAILED => 3

/-- Rounding half-up to 20 decimal places, stated arithmetically over `ℚ`:
this is what bignumber.js applies to a quotient under its default
configuration. -/
def roundHalfUpTo20dp (x : ℚ) : ℚ :=
  ((⌊x * 10 ^ 20 + 1 / 2⌋ : ℤ) : ℚ) / 10 ^ 20

/-- The natural-division implementation of `bnDividedBy` computes exactly
the half-up rounding of the true quotient to 20 decimal places. -/
theorem bnDividedBy_eq_roundHalfUpTo20dp (a b : ℕ) (hb : 0 < b) :
    bnDividedBy a b = roundHalfUpTo20dp ((a : ℚ) / (b : ℚ)) := by
  unfold bnDividedBy roundHalfUpTo20dp
  have hbQ : (b : ℚ) ≠ 0 := Nat.cast_ne_zero.mpr hb.ne'
  have key : (a : ℚ) / (b : ℚ) * 10 ^ 20 + 1 / 2
      = ((2 * a * 10 ^ 20 + b : ℕ) : ℚ) / ((2 * b : ℕ) : ℚ) := by
    push_cast
    field_simp
    ring
  rw [key, Rat.floor_natCast_div_natCast, ← Int.natCast_div, Int.cast_natCast]

/- Concrete collaborators used to instantiate the theorems below. -/

/-- A small concrete `cryptoassets` registry: `SOV` and `ZERO` are ERC-20
tokens on `rsk`, `RBTC` is the native `rsk` asset, everything else lives on
another chain. -/
def rskAssets : String → AssetInfo := fun a =>
  if a = "SOV" then
    { chain := "rsk", decimals := 18, contractAddress := "0xsovtoken", assetType := "erc20" }
  else if a = "ZERO" then
    { chain := "rsk", decimals := 18, contractAddress := "0xzerotoken", assetType := "erc20" }
  else if a = "RBTC" then
    { chain := "rsk", decimals := 18, contractAddress := "", assetType := "native" }
  else
    { chain := "other", decimals := 8, contractAddress := "", assetType := "native" }

/-- A concrete environment: open sale, `PPM = 10⁶`, `exchangeRate = 5·10⁵`,
allowance `100`, every transaction lookup confirmed with a successful
receipt. -/
def envA : Env :=
  { cryptoassets := rskAssets
    chainsNativeAsset := fun _ => "RBTC"
    presaleAddress := "0xPRESALE"
    controllerAddress := "0xcontroller"
    isClosed := false
    PPM := 1000000
    exchangeRate := 500000
    fromAddress := "0xme"
    allowance := 100
    sendTransaction := fun _ => { hash := "0xsenthash" }
    estimateGas := fun _ => 50000
    getTransactionByHash := fun _ => some { confirmations := 3 }
    getTransactionReceipt := fun _ => 1
    now := 1700000000000 }

/-- A concrete swap record used by the witnesses. -/
def swapA : Swap :=
  { status := Status.APPROVE_CONFIRMED
    fromAsset := "SOV"
    toAsset := "ZERO"
    fromAmount := 100
    fee := 1
    fromAccountId := "account-from"
    toAccountId := "account-to"
    approveTxHash := "0xapprovehash"
    swapTxHash := "0xswaphash" }

/-- Environment for the C3 counterexample: `PPM = 3`, `exchangeRate = 1`
(a quotient with no finite decimal expansion) and 0-decimal assets. -/
def envC3 : Env :=
  { envA with
    PPM := 3
    exchangeRate := 1
    cryptoassets := fun a => { rskAssets a with decimals := 0 } }

/-- Environment for the C8 counterexample: `exchangeRate = 500001`,
`PPM = 10⁶` and 1-decimal assets, so a 10-base-unit input yields the
non-integer output amount `5.00001`. -/
def envC8 : Env :=
  { envA with
    exchangeRate := 500001
    cryptoassets := fun a => { rskAssets a with decimals := 1 } }

/-- Claim C2: for every input to `getQuote`, if the two assets are not on
the same chain, or the pair is not the single supported pair
`SOV → ZERO`, or the amount is not positive, or the sale contract reports
closed, then `getQuote` returns `null` (and, being total, does not
throw). -/
theorem C2_getQuote_null (env : Env) (network froA toA : String) (amount : ℚ)
    (h : (env.cryptoassets froA).chain ≠ (env.cryptoassets toA).chain ∨
      ¬(froA = "SOV" ∧ toA = "ZERO") ∨ amount ≤ 0 ∨ env.isClosed = true) :
    getQuote env network froA toA amount = none := by
  simp only [getQuote, checkSaleClosed]
  by_cases h1 : (env.cryptoassets froA).chain ≠ "rsk" ∨
      (env.cryptoassets toA).chain ≠ "rsk" ∨ amount ≤ 0
  · simp only [if_pos h1]
  · simp only [if_neg h1]
    push_neg at h1
    obtain ⟨hf, ht, ha⟩ := h1
    by_cases h2 : froA ≠ "SOV" ∨ toA ≠ "ZERO"
    · simp only [if_pos h2]
    · simp only [if_neg h2]
      push_neg at h2
      obtain ⟨hS, hZ⟩ := h2
      rcases h with hc | hp | hle | hcl
      · exact absurd (hf.trans ht.symm) hc
      · exact absurd ⟨hS, hZ⟩ hp
      · exact absurd hle (not_le.mpr ha)
      · simp [hcl]

/-- Witness for C2 at a concrete input: `SOV` and `OTHER` live on
different chains and the quote is absent. -/
theorem C2_getQuote_null_witness :
    ((envA.cryptoassets "SOV").chain ≠ (envA.cryptoassets "OTHER").chain ∨
      ¬("SOV" = "SOV" ∧ "OTHER" = "ZERO") ∨ (5 : ℚ) ≤ 0 ∨
      envA.isClosed = true) ∧
    getQuote envA "mainnet" "SOV" "OTHER" 5 = none :=
  ⟨Or.inl (by decide),
   C2_getQuote_null envA "mainnet" "SOV" "OTHER" 5 (Or.inl (by decide))⟩

/-- Claim C4: `requiresApproval` returns `false` for every non-ERC20 source
asset; it returns `false` exactly when the source is not an ERC-20 token or
the current allowance granted to the presale contract is at least the
requested input amount; and in the boundary case `allowance = amount` it
returns `false`. -/
theorem C4_requiresApproval_iff (env : Env) (quote : Swap) :
    (isERC20 env.cryptoassets quote.fromAsset = false →
      requiresApproval env quote = false) ∧
    (requiresApproval env quote = false ↔
      isERC20 env.cryptoassets quote.fromAsset = false ∨
        env.allowance ≥ quote.fromAmount) ∧
    (env.allowance = quote.fromAmount → requiresApproval env quote = false) := by
  refine ⟨fun h => by simp [requiresApproval, h], ?_, fun h => ?_⟩
  · by_cases hE : isERC20 env.cryptoassets quote.fromAsset = false
    · simp [requiresApproval, hE]
    · by_cases hA : env.allowance ≥ quote.fromAmount
      · simp [requiresApproval, hE, hA]
      · simp [requiresApproval, hE, hA]
  · by_cases hE : isERC20 env.cryptoassets quote.fromAsset = false
    · simp [requiresApproval, hE]
    · simp [requiresApproval, hE, h]

/-- Witness for C4 at the boundary input: allowance `100` against requested
amount `100` needs no approval. -/
theorem C4_requiresApproval_iff_witness :
    envA.allowance = swapA.fromAmount ∧ requiresApproval envA swapA = false :=
  ⟨rfl, (C4_requiresApproval_iff envA swapA).2.2 rfl⟩

/-- Claim C5: `approveTokens` returns exactly `{status: APPROVE_CONFIRMED}`
and submits no transaction when no approval is required; otherwise it
submits the approval transaction through the chain client and returns
`WAITING_FOR_APPROVE_CONFIRMATIONS` together with the returned transaction
object and its hash. -/
theorem C5_approveTokens (env : Env) (quote : Swap) :
    (requiresApproval env quote = false →
      approveTokens env quote = ({ status := Status.APPROVE_CONFIRMED }, [])) ∧
    (requiresApproval env quote = true →
      approveTokens env quote =
        ({ status := Status.WAITING_FOR_APPROVE_CONFIRMATIONS
           approveTx := some (env.sendTransaction (buildApprovalTx env quote))
           approveTxHash :=
             some (env.sendTransaction (buildApprovalTx env quote)).hash },
         [buildApprovalTx env quote])) := by
  constructor
  · intro h
    simp [approveTokens, h]
  · intro h
    simp [approveTokens, h]

/-- Witness for C5 at a concrete input: allowance equal to the requested
amount, so no approval is needed and nothing is submitted. -/
theorem C5_approveTokens_witness :
    requiresApproval envA swapA = false ∧
    approveTokens envA swapA = ({ status := Status.APPROVE_CONFIRMED }, []) :=
  ⟨by decide, (C5_approveTokens envA swapA).1 (by decide)⟩

/-- Claim C6: `waitForSwapConfirmations` returns no update when the swap
transaction is not found or has zero confirmations; with at least one
confirmation it returns `SUCCESS` when the receipt status is `1` and
`FAILED` for any other receipt status, stamping `endTime` and firing the
balance refresh for the source asset in both cases. -/
theorem C6_waitForSwapConfirmations (env : Env) (swap : Swap) :
    (env.getTransactionByHash swap.swapTxHash = none →
      waitForSwapConfirmations env swap = (none, [])) ∧
    ∀ tx, env.getTransactionByHash swap.swapTxHash = some tx →
      (tx.confirmations = 0 → waitForSwapConfirmations env swap = (none, [])) ∧
      (0 < tx.confirmations → env.getTransactionReceipt swap.swapTxHash = 1 →
        waitForSwapConfirmations env swap =
          (some { status := Status.SUCCESS, endTime := some env.now },
           [swap.fromAsset])) ∧
      (0 < tx.confirmations → env.getTransactionReceipt swap.swapTxHash ≠ 1 →
        waitForSwapConfirmations env swap =
          (some { status := Status.FAILED, endTime := some env.now },
           [swap.fromAsset])) := by
  constructor
  · intro h
    simp [waitForSwapConfirmations, h]
  · intro tx htx
    refine ⟨fun h0 => ?_, fun hpos hr => ?_, fun hpos hr => ?_⟩
    · simp [waitForSwapConfirmations, htx, h0]
    · simp [waitForSwapConfirmations, htx, hpos, hr]
    · simp [waitForSwapConfirmations, htx, hpos, hr]

/-- Witness for C6 at a concrete input: three confirmations and receipt
status `1` yield `SUCCESS` with `endTime` stamped and the source asset
refreshed. -/
theorem C6_waitForSwapConfirmations_witness :
    envA.getTransactionByHash swapA.swapTxHash = some { confirmations := 3 } ∧
    (0 : ℕ) < 3 ∧ envA.getTransactionReceipt swapA.swapTxHash = 1 ∧
    waitForSwapConfirmations envA swapA =
      (some { status := Status.SUCCESS, endTime := some envA.now }, ["SOV"]) :=
  ⟨rfl, by decide, rfl,
   ((C6_waitForSwapConfirmations envA swapA).2 { confirmations := 3 } rfl).2.1
     (by decide) rfl⟩

/-- Claim C10: whenever `waitForApproveConfirmations` finds the approval
transaction with more than zero confirmations, the returned update carries
both `status = APPROVE_CONFIRMED` and `endTime = Date.now()` — the end time
is stamped at this non-terminal confirmation. -/
theorem C10_waitForApproveConfirmations_endTime (env : Env) (swap : Swap)
    (tx : TxLookup)
    (htx : env.getTransactionByHash swap.approveTxHash = some tx)
    (hpos : 0 < tx.confirmations) :
    waitForApproveConfirmations env swap =
      some { status := Status.APPROVE_CONFIRMED, endTime := some env.now } := by
  simp [waitForApproveConfirmations, htx, hpos]

/-- Witness for C10 at a concrete input. -/
theorem C10_waitForApproveConfirmations_endTime_witness :
    envA.getTransactionByHash swapA.approveTxHash = some { confirmations := 3 } ∧
    (0 : ℕ) < 3 ∧
    waitForApproveConfirmations envA swapA =
      some { status := Status.APPROVE_CONFIRMED, endTime := some envA.now } :=
  ⟨rfl, by decide,
   C10_waitForApproveConfirmations_endTime envA swapA { confirmations := 3 }
     rfl (by decide)⟩

/-- `waitForApproveConfirmations` either returns no update or the
`APPROVE_CONFIRMED` update stamped with the current time. -/
theorem waitForApproveConfirmations_cases (env : Env) (swap : Swap) :
    waitForApproveConfirmations env swap = none ∨
    waitForApproveConfirmations env swap =
      some { status := Status.APPROVE_CONFIRMED, endTime := some env.now } := by
  unfold waitForApproveConfirmations
  rcases env.getTransactionByHash swap.approveTxHash with _ | tx
  · exact Or.inl rfl
  · by_cases hc : tx.confirmations > 0
    · exact Or.inr (by simp [hc])
    · exact Or.inl (by simp [hc])

/-- The update part of `waitForSwapConfirmations` is no update, the
`SUCCESS` update, or the `FAILED` update, the latter two stamped with the
current time. -/
theorem waitForSwapConfirmations_cases (env : Env) (swap : Swap) :
    (waitForSwapConfirmations env swap).1 = none ∨
    (waitForSwapConfirmations env swap).1 =
      some { status := Status.SUCCESS, endTime := some env.now } ∨
    (waitForSwapConfirmations env swap).1 =
      some { status := Status.FAILED, endTime := some env.now } := by
  unfold waitForSwapConfirmations
  rcases env.getTransactionByHash swap.swapTxHash with _ | tx
  · exact Or.inl rfl
  · by_cases hc : tx.confirmations > 0
    · by_cases hr : env.getTransactionReceipt swap.swapTxHash = 1
      · exact Or.inr (Or.inl (by simp [hc, hr]))
      · exact Or.inr (Or.inr (by simp [hc, hr]))
    · exact Or.inl (by simp [hc])

/-- Claim C1: `performNextSwapAction` only advances the status forward
along `WAITING_FOR_APPROVE_CONFIRMATIONS → APPROVE_CONFIRMED →
WAITING_FOR_SWAP_CONFIRMATIONS → {SUCCESS, FAILED}`: while waiting for the
approval it returns no update or `APPROVE_CONFIRMED`; in
`APPROVE_CONFIRMED` it returns `WAITING_FOR_SWAP_CONFIRMATIONS`; while
waiting for the swap it returns no update, `SUCCESS` or `FAILED`; in the
terminal statuses it returns no update; and every returned update strictly
increases `statusRank`, so the status never regresses. -/
theorem C1_performNextSwapAction_forward (env : Env) (swap : Swap) :
    (swap.status = Status.WAITING_FOR_APPROVE_CONFIRMATIONS →
      performNextSwapAction env swap = none ∨
        ∃ u, performNextSwapAction env swap = some u ∧
          u.status = Status.APPROVE_CONFIRMED) ∧
    (swap.status = Status.APPROVE_CONFIRMED →
      ∃ u, performNextSwapAction env swap = some u ∧
        u.status = Status.WAITING_FOR_SWAP_CONFIRMATIONS) ∧
    (swap.status = Status.WAITING_FOR_SWAP_CONFIRMATIONS →
      performNextSwapAction env swap = none ∨
        ∃ u, performNextSwapAction env swap = some u ∧
          (u.status = Status.SUCCESS ∨ u.status = Status.FAILED)) ∧
    (swap.status = Status.SUCCESS ∨ swap.status = Status.FAILED →
      performNextSwapAction env swap = none) ∧
    (∀ u, performNextSwapAction env swap = some u →
      statusRank swap.status < statusRank u.status) := by
  refine ⟨fun hs => ?_, fun hs => ?_, fun hs => ?_, fun hs => ?_, fun u hu => ?_⟩
  · rcases waitForApproveConfirmations_cases env swap with h | h
    · exact Or.inl (by simp [performNextSwapAction, hs, withInterval, h])
    · exact Or.inr ⟨{ status := Status.APPROVE_CONFIRMED, endTime := some env.now },
        by simp [performNextSwapAction, hs, withInterval, h], rfl⟩
  · exact ⟨(sendSwap env swap).1,
      by simp [performNextSwapAction, hs, withLock], rfl⟩
  · rcases waitForSwapConfirmations_cases env swap with h | h | h
    · exact Or.inl (by simp [performNextSwapAction, hs, withInterval, h])
    · exact Or.inr ⟨{ status := Status.SUCCESS, endTime := some env.now },
        by simp [performNextSwapAction, hs, withInterval, h], Or.inl rfl⟩
    · exact Or.inr ⟨{ status := Status.FAILED, endTime := some env.now },
        by simp [performNextSwapAction, hs, withInterval, h], Or.inr rfl⟩
  · rcases hs with hs | hs <;> simp [performNextSwapAction, hs]
  · cases hstat : swap.status
    case WAITING_FOR_APPROVE_CONFIRMATIONS =>
      rcases waitForApproveConfirmations_cases env swap with h | h <;>
        simp [performNextSwapAction, hstat, withInterval, h] at hu
      · subst hu
        simp [hstat, statusRank]
    case APPROVE_CONFIRMED =>
      simp [performNextSwapAction, hstat, withLock, sendSwap] at hu
      subst hu
      simp [hstat, statusRank]
    case WAITING_FOR_SWAP_CONFIRMATIONS =>
      rcases waitForSwapConfirmations_cases env swap with h | h | h <;>
        simp [performNextSwapAction, hstat, withInterval, h] at hu <;>
        try subst hu
      · simp [hstat, statusRank]
      · simp [hstat, statusRank]
    case SUCCESS =>
      simp [performNextSwapAction, hstat] at hu
    case FAILED =>
      simp [performNextSwapAction, hstat] at hu

/-- Witness for C1 at a concrete input: from `APPROVE_CONFIRMED` the next
action yields `WAITING_FOR_SWAP_CONFIRMATIONS`. -/
theorem C1_performNextSwapAction_forward_witness :
    swapA.status = Status.APPROVE_CONFIRMED ∧
    ∃ u, performNextSwapAction envA swapA = some u ∧
      u.status = Status.WAITING_FOR_SWAP_CONFIRMATIONS :=
  ⟨rfl, (C1_performNextSwapAction_forward envA swapA).2.1 rfl⟩

/-- Claim C7: `estimateFees` raises immediately for any `txType` other than
the supported `SWAP` type; otherwise the total gas budget is `750000` plus
the approval-transaction gas estimate exactly when approval is required
(`750000` alone otherwise), and every candidate fee price maps to
`gasBudget × 1.1 × feePrice` (the gwei price scaled by `10⁹`) expressed in
the native asset's display unit. -/
theorem C7_estimateFees_budget (env : Env) (asset txType : String)
    (quote : Swap) (feePrices : List ℚ) :
    (txType ≠ "SWAP" →
      estimateFees env asset txType quote feePrices =
        Except.error ("Invalid tx type " ++ txType)) ∧
    (txType = "SWAP" →
      estimateFees env asset txType quote feePrices =
        Except.ok (feePrices.map fun feePrice =>
          (feePrice,
            unitToCurrency
              (env.cryptoassets
                (env.chainsNativeAsset (env.cryptoassets asset).chain))
              (((750000 +
                  (if requiresApproval env quote then
                    env.estimateGas (buildApprovalTx env quote)
                  else 0) : ℕ) : ℚ) * (11 / 10) * (feePrice * 10 ^ 9))))) := by
  constructor
  · intro h
    simp [estimateFees, h]
  · intro h
    subst h
    simp [estimateFees, Nat.add_comm]

/-- Evaluation of the concrete registry at the native asset. -/
theorem rskAssets_RBTC :
    rskAssets "RBTC" =
      { chain := "rsk", decimals := 18, contractAddress := "",
        assetType := "native" } := rfl

/-- Evaluation of the concrete registry at the source token. -/
theorem rskAssets_SOV :
    rskAssets "SOV" =
      { chain := "rsk", decimals := 18, contractAddress := "0xsovtoken",
        assetType := "erc20" } := rfl

/-- Witness for C7 at a concrete input: fee tiers `[5, 10]` with no approval
required, so the gas budget is the bare `750000`; the two resulting fees
are `0.004125` and `0.00825` RBTC. -/
theorem C7_estimateFees_budget_witness :
    "SWAP" = "SWAP" ∧
    estimateFees envA "SOV" "SWAP" swapA [5, 10] =
      Except.ok ([5, 10].map fun feePrice =>
        (feePrice,
          unitToCurrency
            (envA.cryptoassets
              (envA.chainsNativeAsset (envA.cryptoassets "SOV").chain))
            (((750000 +
                (if requiresApproval envA swapA then
                  envA.estimateGas (buildApprovalTx envA swapA)
                else 0) : ℕ) : ℚ) * (11 / 10) * (feePrice * 10 ^ 9)))) ∧
    estimateFees envA "SOV" "SWAP" swapA [5, 10] =
      Except.ok [(5, 33 / 8000), (10, 33 / 4000)] :=
  ⟨rfl, (C7_estimateFees_budget envA "SOV" "SWAP" swapA [5, 10]).2 rfl, by
    norm_num [estimateFees, envA, rskAssets_RBTC, rskAssets_SOV, swapA,
      requiresApproval, isERC20, unitToCurrency]⟩

/-- Environment for the C3 witness: `PPM = 10⁶`, `exchangeRate = 5·10⁵`
and 0-decimal assets, so a quote for amount `100` has `fromAmount = 100`
base units. -/
def envC3w : Env :=
  { envA with cryptoassets := fun a => { rskAssets a with decimals := 0 } }

/-- On the supported pair with an open sale and a positive amount,
`getQuote` returns the quote built from `currencyToUnit` and
`bnDividedBy`. -/
theorem getQuote_pos (env : Env) (network : String) (amount : ℚ)
    (hf : (env.cryptoassets "SOV").chain = "rsk")
    (ht : (env.cryptoassets "ZERO").chain = "rsk")
    (ha : 0 < amount)
    (hopen : env.isClosed = false) :
    getQuote env network "SOV" "ZERO" amount =
      some { fromAsset := "SOV"
             toAsset := "ZERO"
             fromAmount := currencyToUnit (env.cryptoassets "SOV") amount
             toAmount := currencyToUnit (env.cryptoassets "SOV") amount *
               bnDividedBy env.exchangeRate env.PPM } := by
  simp only [getQuote, checkSaleClosed, hopen]
  rw [if_neg (by push_neg; exact ⟨hf, ht, ha⟩), if_neg (by simp)]
  simp [getDepositRate]

/-- Claim C3 is false as stated: the rate is not the exact quotient
`exchangeRate / PPM`.  With `PPM = 3` and `exchangeRate = 1` read from the
contract (sale open, supported pair, 0-decimal assets, amount `3`), the
exact value `fromAmountInBaseUnits × exchangeRate / PPM` is `1`, but the
computed `toAmount` is `0.99999999999999999999`, because `dividedBy`
rounded the rate to 20 decimal places. -/
theorem C3_counterexample :
    (getQuote envC3 "mainnet" "SOV" "ZERO" 3).map Quote.toAmount ≠
      some ((3 * 10 ^ (0 : ℕ) : ℚ) * ((1 : ℚ) / 3)) := by
  rw [getQuote_pos envC3 "mainnet" 3 rfl rfl (by norm_num) rfl]
  norm_num [currencyToUnit, bnDividedBy,
    show envC3.exchangeRate = 1 from rfl, show envC3.PPM = 3 from rfl,
    show (envC3.cryptoassets "SOV").decimals = 0 from rfl]

/-- Claim C3 (amended): when the pair is supported and the sale is open,
`getQuote` computes the rate as `exchangeRate / PPM` rounded half-up to 20
decimal places (the bignumber.js default for division) and
`toAmount = fromAmountInBaseUnits × rate` with the product taken exactly;
when the quotient has at most 20 decimal places no rounding occurs, and in
particular `PPM = 10⁶`, `exchangeRate = 5·10⁵` give `rate = 0.5` and a
100-base-unit input yields exactly 50 base units. -/
theorem C3_getQuote_roundedRate (env : Env) (network : String) (amount : ℚ)
    (hPPM : 0 < env.PPM)
    (hf : (env.cryptoassets "SOV").chain = "rsk")
    (ht : (env.cryptoassets "ZERO").chain = "rsk")
    (ha : 0 < amount)
    (hopen : env.isClosed = false) :
    getQuote env network "SOV" "ZERO" amount =
      some { fromAsset := "SOV"
             toAsset := "ZERO"
             fromAmount := currencyToUnit (env.cryptoassets "SOV") amount
             toAmount := currencyToUnit (env.cryptoassets "SOV") amount *
               roundHalfUpTo20dp ((env.exchangeRate : ℚ) / (env.PPM : ℚ)) } := by
  rw [getQuote_pos env network amount hf ht ha hopen,
    bnDividedBy_eq_roundHalfUpTo20dp env.exchangeRate env.PPM hPPM]

/-- Witness for the amended C3 at the claim's concrete values:
`PPM = 10⁶`, `exchangeRate = 5·10⁵`, 100 base units in; the rounded rate
equals the exact `0.5` and the quote carries exactly 50 base units out. -/
theorem C3_getQuote_roundedRate_witness :
    (0 < envC3w.PPM ∧ (envC3w.cryptoassets "SOV").chain = "rsk" ∧
      (envC3w.cryptoassets "ZERO").chain = "rsk" ∧ (0 : ℚ) < 100 ∧
      envC3w.isClosed = false) ∧
    getQuote envC3w "mainnet" "SOV" "ZERO" 100 =
      some { fromAsset := "SOV"
             toAsset := "ZERO"
             fromAmount := currencyToUnit (envC3w.cryptoassets "SOV") 100
             toAmount := currencyToUnit (envC3w.cryptoassets "SOV") 100 *
               roundHalfUpTo20dp
                 ((envC3w.exchangeRate : ℚ) / (envC3w.PPM : ℚ)) } ∧
    getQuote envC3w "mainnet" "SOV" "ZERO" 100 =
      some { fromAsset := "SOV", toAsset := "ZERO", fromAmount := 100,
             toAmount := 50 } :=
  ⟨⟨by norm_num [envC3w, envA], rfl, rfl, by norm_num, rfl⟩,
   C3_getQuote_roundedRate envC3w "mainnet" 100 (by norm_num [envC3w, envA])
     rfl rfl (by norm_num) rfl,
   by
    rw [getQuote_pos envC3w "mainnet" 100 rfl rfl (by norm_num) rfl]
    norm_num [currencyToUnit, bnDividedBy,
      show envC3w.exchangeRate = 500000 from rfl,
      show envC3w.PPM = 1000000 from rfl,
      show (envC3w.cryptoassets "SOV").decimals = 0 from rfl]⟩

/-- Claim C8 is false as stated: quotes carry no `fee` field, and
`toAmount` is not always an integer-valued amount.  With
`exchangeRate = 500001`, `PPM = 10⁶` and a 10-base-unit input the returned
`toAmount` is `5.00001`, which is not equal to any integer. -/
theorem C8_counterexample :
    (getQuote envC8 "mainnet" "SOV" "ZERO" 1).map Quote.toAmount =
      some (500001 / 100000 : ℚ) ∧
    ¬ ∃ n : ℤ, (500001 / 100000 : ℚ) = (n : ℚ) := by
  constructor
  · rw [getQuote_pos envC8 "mainnet" 1 rfl rfl (by norm_num) rfl]
    norm_num [currencyToUnit, bnDividedBy,
      show envC8.exchangeRate = 500001 from rfl,
      show envC8.PPM = 1000000 from rfl,
      show (envC8.cryptoassets "SOV").decimals = 1 from rfl]
  · rintro ⟨n, hn⟩
    have h1 : (500001 : ℚ) = (n : ℚ) * 100000 := by
      field_simp at hn
      exact_mod_cast hn
    have h2 : (500001 : ℤ) = n * 100000 := by exact_mod_cast h1
    omega

/-- Claim C8 (amended): every non-null quote returned by `getQuote` is the
record `{from, to, fromAmount, toAmount}` — with no `fee` field — in which
`fromAmount` is the base-unit input amount and `toAmount` is the product
of `fromAmount` with the deposit rate; neither amount is guaranteed to be
integer-valued. -/
theorem C8_quote_shape (env : Env) (network froA toA : String) (amount : ℚ)
    (q : Quote) (h : getQuote env network froA toA amount = some q) :
    q.fromAsset = froA ∧ q.toAsset = toA ∧
    q.fromAmount = currencyToUnit (env.cryptoassets froA) amount ∧
    q.toAmount = q.fromAmount * getDepositRate env := by
  simp only [getQuote] at h
  split at h
  · exact absurd h (by simp)
  · split at h
    · exact absurd h (by simp)
    · split at h
      · exact absurd h (by simp)
      · injection h with h
        subst h
        exact ⟨rfl, rfl, rfl, rfl⟩

/-- Evaluation of `getQuote` in the concrete environment `envA`: one `SOV`
converts to the quote with `fromAmount = 10¹⁸` and `toAmount = 5·10¹⁷`. -/
theorem getQuote_envA_eval :
    getQuote envA "mainnet" "SOV" "ZERO" 1 =
      some { fromAsset := "SOV", toAsset := "ZERO", fromAmount := 10 ^ 18,
             toAmount := 5 * 10 ^ 17 } := by
  rw [getQuote_pos envA "mainnet" 1 rfl rfl (by norm_num) rfl]
  norm_num [currencyToUnit, bnDividedBy,
    show envA.exchangeRate = 500000 from rfl,
    show envA.PPM = 1000000 from rfl,
    show (envA.cryptoassets "SOV").decimals = 18 from rfl]

/-- Witness for the amended C8 at a concrete input: one `SOV` converts to
the quote with `fromAmount = 10¹⁸` and `toAmount = 5·10¹⁷`. -/
theorem C8_quote_shape_witness :
    getQuote envA "mainnet" "SOV" "ZERO" 1 =
      some { fromAsset := "SOV", toAsset := "ZERO", fromAmount := 10 ^ 18,
             toAmount := 5 * 10 ^ 17 } ∧
    ("SOV" = "SOV" ∧ "ZERO" = "ZERO" ∧
      (10 ^ 18 : ℚ) = currencyToUnit (envA.cryptoassets "SOV") 1 ∧
      (5 * 10 ^ 17 : ℚ) = (10 ^ 18 : ℚ) * getDepositRate envA) :=
  ⟨getQuote_envA_eval,
   C8_quote_shape envA "mainnet" "SOV" "ZERO" 1
     { fromAsset := "SOV", toAsset := "ZERO", fromAmount := 10 ^ 18,
       toAmount := 5 * 10 ^ 17 } getQuote_envA_eval⟩

end OriginsSwap
